import Mathlib

/-!
Verification of a two-user Telegram money-tracking bot.

The development shallowly embeds the bot's core logic: the KRW amount
parser, the free-text commit flow driven by per-user sessions
(split / expenses / debt branches), the clear-approval callback handlers,
the allow-list middleware, and the admin-only delete command.  Stateful
handlers are modelled as pure functions from a `BotState` (ledger entries
plus sessions) and the incoming update to a new `BotState` together with
the list of outbound messages; the nanoid draws and the wall clock are
passed in as explicit parameters.
-/

set_option maxRecDepth 100000

namespace TgBot

/-- The two real participants (source type UserName = Sheyx | Polvon). -/
inductive UserName where
  | Sheyx
  | Polvon
deriving DecidableEq, Repr

/-- Session target (source type SessionName = UserName | Umumiy);
the database null is modelled by wrapping in Option at the use site. -/
inductive SessionName where
  | user (u : UserName)
  | Umumiy
deriving DecidableEq, Repr

/-- Entry mode (source type Mode = debt | expenses); null is Option at use site. -/
inductive Mode where
  | debt
  | expenses
deriving DecidableEq, Repr

/-- One ledger line item (interface IEntry); `time` is an abstract clock value. -/
structure Entry where
  id : String
  name : UserName
  amount : Nat
  note : String
  time : Nat
deriving DecidableEq, Repr

/-- Per-user conversation state (interface ISession). -/
structure Session where
  userId : String
  name : Option SessionName
  mode : Option Mode
deriving DecidableEq, Repr

/-- Characters matched by the JavaScript regex class \s
(ECMAScript WhiteSpace plus LineTerminator code points). -/
def jsWhitespace (c : Char) : Bool :=
  c = ' ' || c = '\t' || c = '\n' || c = '\r' || c.val = 0x0b || c.val = 0x0c ||
  c.val = 0xa0 || c.val = 0x1680 || (0x2000 ≤ c.val && c.val ≤ 0x200a) ||
  c.val = 0x2028 || c.val = 0x2029 || c.val = 0x202f || c.val = 0x205f ||
  c.val = 0x3000 || c.val = 0xfeff

/-- Characters removed by parseKrwAmount, the regex class [.,\s_]. -/
def isSepChar (c : Char) : Bool :=
  c = '.' || c = ',' || jsWhitespace c || c = '_'

/-- Numeric value of a decimal digit character. -/
def digitVal (c : Char) : Nat := c.toNat - 48

/-- Smallest e with n < 2^53 * 2^e, computed by fuel recursion; any fuel of
at least the bit length of n (so in particular fuel = n) gives the true
value.  This is the scale of the binary64 values around n. -/
def dblExp (fuel n : Nat) : Nat :=
  match fuel with
  | 0 => 0
  | fuel + 1 => if n < 2 ^ 53 then 0 else dblExp fuel (n / 2) + 1

/-- The ECMAScript Number value of a non-negative mathematical integer:
round to the nearest IEEE-754 binary64 value (ties to the even mantissa),
none when the result overflows to infinity (at or beyond 2^1024 in the
unbounded rounding).  Integers below 2^53 are returned exactly. -/
def roundToDouble (n : Nat) : Option Nat :=
  let e := dblExp n n
  let s := 2 ^ e
  let q := n / s
  let r := n % s
  let rounded := (if r * 2 < s then q else if r * 2 > s then q + 1
                  else if q % 2 = 0 then q else q + 1) * s
  if rounded < 2 ^ 1024 then some rounded else none

/-- Model of parseKrwAmount: reject the empty string, strip every
[.,\s_] character, require the residue to be non-empty and all decimal
digits, then return parseInt of the residue in base 10 — the digit value
rounded to the nearest binary64 double — guarded by the source's final
Number.isFinite check, which turns an infinite parseInt result into null. -/
def parseKrwAmount (raw : String) : Option Nat :=
  if raw = "" then none
  else
    let cleaned := raw.data.filter fun c => !isSepChar c
    if !cleaned.isEmpty && cleaned.all Char.isDigit then
      roundToDouble (cleaned.foldl (fun acc c => 10 * acc + digitVal c) 0)
    else
      none

/-- Helper for formatKRW: put a dot before every position from which the
remaining digit count is a positive multiple of three (the source regex
replace with lookahead on groups of three digits). -/
def insertDots : List Char → List Char
  | [] => []
  | c :: rest =>
    if rest.length % 3 == 0 && !rest.isEmpty then c :: '.' :: insertDots rest
    else c :: insertDots rest

/-- Model of formatKRW: decimal rendering with dot-separated thousands groups. -/
def formatKRW (num : Nat) : String := ⟨insertDots (toString num).data⟩

/-- Model of the JavaScript string split on a single space: consecutive
separators produce empty fields and the empty string yields one empty field. -/
def splitSpace : List Char → List (List Char)
  | [] => [[]]
  | c :: rest =>
    let r := splitSpace rest
    if c = ' ' then [] :: r
    else
      match r with
      | [] => [[c]]
      | g :: gs => (c :: g) :: gs

/-- Model of the JavaScript string trim: drop \s characters from both ends. -/
def jsTrim (s : String) : String :=
  ⟨((s.data.dropWhile jsWhitespace).reverse.dropWhile jsWhitespace).reverse⟩

/-- Tokens of the incoming text as the handler computes them:
trim then split on single spaces. -/
def tokenize (text : String) : List String :=
  (splitSpace (jsTrim text).data).map fun cs => ⟨cs⟩

/-- Model of joining the remaining tokens with single spaces (the note). -/
def joinSpace : List String → String
  | [] => ""
  | [s] => s
  | s :: rest => s ++ " " ++ joinSpace rest

/-- The empty string, named so it can be passed as a default argument. -/
def emptyStr : String := ""

/-- Math.round of n / 2 for a natural n: the exact half when n is even,
and the half rounded up (round half towards positive infinity) when odd. -/
def mathRoundHalf (n : Nat) : Nat := (n + 1) / 2

/-- The static allow-list of identities (the two-user variant). -/
def ALLOWED_USERS : List String := ["615764917", "499127006"]

/-- The persistent state the handlers read and write: the Entry collection
and the Session collection. -/
structure BotState where
  entries : List Entry
  sessions : List Session
deriving DecidableEq, Repr

/-- Model of a findOne on the Session collection keyed by userId. -/
def findSession (ss : List Session) (uid : String) : Option Session :=
  ss.find? fun s => s.userId == uid

/-- Model of a findOneAndUpdate (no upsert) setting name and mode on the
unique session of a user: the first matching record is updated in place. -/
def updateFirstSession : List Session → String → Option SessionName → Option Mode → List Session
  | [], _, _, _ => []
  | s :: rest, uid, nm, md =>
    if s.userId == uid then { s with name := nm, mode := md } :: rest
    else s :: updateFirstSession rest uid nm md

/-- Outbound effects a handler produces: a reply to the interacting chat or
a direct message to a given recipient. -/
inductive OutMsg where
  | reply (text : String)
  | send (recipient : String) (text : String)
deriving DecidableEq, Repr

/-- Rendering of the clock used inside notification texts (stands for the
moment date formatting of the handler time). -/
def formatTime (now : Nat) : String := toString now

/-- Display label of a participant. -/
def UserName.label : UserName → String
  | .Sheyx => "Sheyx"
  | .Polvon => "Polvon"

/-- Reply sent when the amount token fails to parse. -/
def invalidAmountMsg : String :=
  "❌ Invalid amount. Examples: `50000`, `50.000`, `50,000`, `50 000`\nOr type /cancel to abort."

/-- Confirmation reply of the Umumiy branch. -/
def umumiyReply (amount share : Nat) : String :=
  "✅ Umumiy recorded. Total " ++ formatKRW amount ++ "₩ split 50/50 → " ++
    formatKRW share ++ "₩ each."

/-- Notification the Umumiy branch broadcasts to the other users. -/
def umumiyNotice (amount share : Nat) (note : String) (now : Nat) : String :=
  "🔔 Umumiy split: total " ++ formatKRW amount ++ "₩ → Sheyx " ++ formatKRW share ++
    "₩, Polvon " ++ formatKRW share ++ "₩\n📝 Note: " ++ note ++ "\n🕒 " ++ formatTime now

/-- Confirmation reply of the expenses branch. -/
def expensesReply (u : UserName) (amount half : Nat) : String :=
  "✅ Expenses recorded for " ++ u.label ++ ": total " ++ formatKRW amount ++
    "₩ → saved " ++ formatKRW half ++ "₩ (their half only)."

/-- Notification the expenses branch broadcasts to the other users. -/
def expensesNotice (u : UserName) (amount half : Nat) (note : String) (now : Nat) : String :=
  "🔔 Expenses: " ++ u.label ++ " saved " ++ formatKRW half ++ "₩ (from total " ++
    formatKRW amount ++ "₩)\n📝 Note: " ++ note ++ "\n🕒 " ++ formatTime now

/-- Confirmation reply of the debt branch. -/
def debtReply (u : UserName) (amount : Nat) : String :=
  "✅ " ++ u.label ++ " debt recorded: " ++ formatKRW amount ++ "₩."

/-- Notification the debt branch broadcasts to the other users. -/
def debtNotice (u : UserName) (amount : Nat) (note : String) (now : Nat) : String :=
  "🔔 Debt added for " ++ u.label ++ ": " ++ formatKRW amount ++ "₩\n📝 Note: " ++
    note ++ "\n🕒 " ++ formatTime now

/-- Broadcast of one message to every allow-listed identity other than the sender. -/
def notifyOthers (userId msg : String) : List OutMsg :=
  (ALLOWED_USERS.filter fun uid => uid != userId).map fun uid => .send uid msg

/-- Model of the free-text handler (the core add flow).  Reads the sender's
session; with no session or no selected name it does nothing.  Otherwise the
first token of the trimmed text is parsed as the amount and the remaining
tokens joined as the note; on parse failure it replies the invalid-amount
guidance and changes nothing.  On success it commits per the session:
Umumiy inserts one half-share entry per participant, expenses inserts the
chosen participant's half only, and debt (or an unset mode) inserts the full
amount for the chosen participant; each commit resets the session and
notifies the other users.  `id1` and `id2` stand for the nanoid draws and
`now` for the handler's clock. -/
def onText (st : BotState) (userId text id1 id2 : String) (now : Nat) :
    BotState × List OutMsg :=
  match findSession st.sessions userId with
  | none => (st, [])
  | some session =>
    match session.name with
    | none => (st, [])
    | some sname =>
      let parts := tokenize text
      let note := joinSpace (parts.drop 1)
      match parseKrwAmount (parts.headD emptyStr) with
      | none => (st, [.reply invalidAmountMsg])
      | some amount =>
        match sname with
        | .Umumiy =>
          let share := mathRoundHalf amount
          let st2 : BotState :=
            { entries := st.entries ++
                [⟨id1, .Sheyx, share, note, now⟩, ⟨id2, .Polvon, share, note, now⟩],
              sessions := updateFirstSession st.sessions userId none none }
          (st2, .reply (umumiyReply amount share) ::
                  notifyOthers userId (umumiyNotice amount share note now))
        | .user u =>
          if session.mode == some Mode.expenses then
            let half := mathRoundHalf amount
            let st2 : BotState :=
              { entries := st.entries ++ [⟨id1, u, half, note, now⟩],
                sessions := updateFirstSession st.sessions userId none none }
            (st2, .reply (expensesReply u amount half) ::
                    notifyOthers userId (expensesNotice u amount half note now))
          else
            let st2 : BotState :=
              { entries := st.entries ++ [⟨id1, u, amount, note, now⟩],
                sessions := updateFirstSession st.sessions userId none none }
            (st2, .reply (debtReply u amount) ::
                    notifyOthers userId (debtNotice u amount note now))

/-- Refusal reply used by the clear and delete handlers. -/
def notAuthorizedShort : String := "🚫 You\x27re not authorized."

/-- Reply to the approver after a clear. -/
def clearedReply : String := "🧹 All entries have been cleared."

/-- Notice sent to the other user after a clear. -/
def clearedNotice : String := "🧹 The entries have been cleared."

/-- Notice sent to the other user after a denial. -/
def deniedNotice : String := "❌ The request to clear entries was denied by the other user."

/-- Reply to the denier. -/
def deniedReply : String := "❌ Your request to clear entries has been denied."

/-- The first allow-listed identity different from the given one. -/
def otherUser (userId : String) : Option String :=
  ALLOWED_USERS.find? fun uid => uid != userId

/-- Model of the approve callback: an allow-listed identity deletes every
Entry and both users are told; anyone else is refused. -/
def approveClear (st : BotState) (userId : String) : BotState × List OutMsg :=
  if !ALLOWED_USERS.contains userId then (st, [.reply notAuthorizedShort])
  else
    let st2 : BotState := { st with entries := [] }
    match otherUser userId with
    | some o => (st2, [.reply clearedReply, .send o clearedNotice])
    | none => (st2, [.reply clearedReply])

/-- Model of the deny callback: nothing is deleted; the other allow-listed
identity is told of the denial and the denier gets a confirmation.  The
branch with no other user is unreachable for the two-element allow-list
(the source asserts the value as non-null). -/
def denyClear (st : BotState) (userId : String) : BotState × List OutMsg :=
  if !ALLOWED_USERS.contains userId then (st, [.reply notAuthorizedShort])
  else
    match otherUser userId with
    | some o => (st, [.send o deniedNotice, .reply deniedReply])
    | none => (st, [])

/-- Usage reply of the delete command. -/
def delUsageMsg : String :=
  "❌ Usage: /delete <entry_id>\nExample: `/delete abc123`"

/-- Not-found reply of the delete command. -/
def delNotFoundMsg (entryId : String) : String :=
  "❌ Entry with ID `" ++ entryId ++ "` not found."

/-- Refusal reply of the delete command. -/
def delUnauthorizedMsg : String := "🚫 You\x27re not authorized to delete entries."

/-- Success reply of the delete command. -/
def delSuccessMsg (entryId : String) : String :=
  "🗑️ Entry `" ++ entryId ++ "` deleted successfully."

/-- Notification the delete command broadcasts to the other users. -/
def delNotice (e : Entry) : String :=
  "⚠️ Entry deleted by admin:\n👤 " ++ e.name.label ++ "\n💵 " ++ formatKRW e.amount ++
    "₩\n📝 " ++ e.note ++ "\n🕒 " ++ formatTime e.time

/-- Model of the delete command.  The full message text is split on spaces;
anything but exactly two parts gets the usage reply.  The entry is looked
up FIRST: a missing id gets the not-found reply no matter who asks.  Only
then is the sender checked to be both allow-listed and the admin identity;
otherwise the refusal reply is sent and nothing is deleted.  On success the
first entry with the id is removed, the sender gets a confirmation and the
other users a notification. -/
def deleteCommand (adminId : String) (st : BotState) (userId text : String) :
    BotState × List OutMsg :=
  let parts := (splitSpace text.data).map fun cs => (⟨cs⟩ : String)
  if parts.length != 2 then (st, [.reply delUsageMsg])
  else
    let entryId := parts.getD 1 emptyStr
    match st.entries.find? fun e => e.id == entryId with
    | none => (st, [.reply (delNotFoundMsg entryId)])
    | some entry =>
      if !ALLOWED_USERS.contains userId || userId != adminId then
        (st, [.reply delUnauthorizedMsg])
      else
        ({ st with entries := st.entries.eraseP fun e => e.id == entryId },
         .reply (delSuccessMsg entryId) :: notifyOthers userId (delNotice entry))

/-- The inbound interactions whose handlers are modelled here: a free-text
message, a delete command (with its full text), and the two clear callbacks. -/
inductive Incoming where
  | textMsg (t : String)
  | deleteMsg (t : String)
  | approveCb
  | denyCb
deriving DecidableEq, Repr

/-- Message text the middleware reports to the admin: the text of a message
update, or the literal Unknown for callback updates. -/
def incomingText : Incoming → String
  | .textMsg t => t
  | .deleteMsg t => t
  | .approveCb => "Unknown"
  | .denyCb => "Unknown"

/-- Alert the middleware sends to the admin on an unauthorized attempt. -/
def unauthorizedAlert (username userId msgText : String) : String :=
  "🚨 Unauthorized Access Attempt\n👤 User: " ++ username ++ " (" ++ userId ++
    ")\nMessage: " ++ msgText

/-- Refusal the middleware replies to an unauthorized identity. -/
def notAuthorizedMsg : String := "🚫 You are not authorized to use this bot."

/-- Model of the auth middleware wrapped around every handler: an identity
off the allow-list gets the admin alert plus a refusal and no handler runs;
an allow-listed identity is dispatched to the matching handler. -/
def dispatch (adminId : String) (st : BotState) (userId username : String)
    (inc : Incoming) (id1 id2 : String) (now : Nat) : BotState × List OutMsg :=
  if ALLOWED_USERS.contains userId then
    match inc with
    | .textMsg t => onText st userId t id1 id2 now
    | .deleteMsg t => deleteCommand adminId st userId t
    | .approveCb => approveClear st userId
    | .denyCb => denyClear st userId
  else
    (st, [.send adminId (unauthorizedAlert username userId (incomingText inc)),
          .reply notAuthorizedMsg])

/-- Separator set exactly as the parser claim words it: period, comma,
the space character, and underscore (no other whitespace). -/
def claimSepChar (c : Char) : Bool := c = '.' || c = ',' || c = ' ' || c = '_'

/-- The parser procedure exactly as the claim words it, for comparison with
the code: strip the four claimed separator characters, succeed iff the
residue is non-empty and all decimal digits, returning the number the
residue writes in base 10. -/
def specClaimParse (raw : String) : Option Nat :=
  let residue := raw.data.filter fun c => !claimSepChar c
  if !residue.isEmpty && residue.all Char.isDigit then
    some (Nat.ofDigits 10 ((residue.map digitVal).reverse))
  else none

/-- The parser procedure of the amended claim: strip period, comma,
underscore, and every whitespace character; if the residue is non-empty and
all decimal digits, form the number it writes in base 10 and return its
rounding to the nearest finite binary64 value, failing when that rounding
is not finite; otherwise fail. -/
def specAmendedParse (raw : String) : Option Nat :=
  let residue := raw.data.filter fun c => !isSepChar c
  if !residue.isEmpty && residue.all Char.isDigit then
    roundToDouble (Nat.ofDigits 10 ((residue.map digitVal).reverse))
  else none

/-- A raw amount whose only non-digit is a tab character. -/
def tabInput : String := "5\t0"

/-- A 400-digit amount (one followed by 399 zeros), whose parseInt value
overflows the double range. -/
def bigInput : String := ⟨'1' :: List.replicate 399 '0'⟩

/-- The decimal writing of 2^53 + 1, the first integer a double cannot
represent exactly. -/
def overP53 : String := "9007199254740993"

/-- Example strings from the parser claim. -/
def exDot : String := "50.000"

def exComma : String := "50,000"

def exSpaced : String := "50 000"

def exUnderscore : String := "50_000"

def exPlain : String := "50000"

def exAbc : String := "abc"

def exDigitsLetter : String := "12a"

/-- Concrete fixtures used by the witness theorems. -/
def wUid : String := "615764917"

def wUid2 : String := "499127006"

def wOutsider : String := "999"

def wUsername : String := "eve"

def wId1 : String := "e1"

def wId2 : String := "e2"

def wSessU : Session := ⟨wUid, some SessionName.Umumiy, none⟩

def wStU : BotState := ⟨[], [wSessU]⟩

def wTextU : String := "50000 snacks"

def wSessE : Session := ⟨wUid, some (SessionName.user UserName.Sheyx), some Mode.expenses⟩

def wStE : BotState := ⟨[], [wSessE]⟩

def wTextE : String := "50000 lunch"

def wSessD : Session := ⟨wUid, some (SessionName.user UserName.Polvon), none⟩

def wStD : BotState := ⟨[], [wSessD]⟩

def wTextD : String := "30000 borrowed"

def wSessI : Session := ⟨wUid, none, none⟩

def wStI : BotState := ⟨[], [wSessI]⟩

def wBadText : String := "abc snack"

def wEntryId : String := "xyz"

def wNote : String := "k"

def wEntry : Entry := ⟨wEntryId, UserName.Sheyx, 5000, wNote, 1⟩

def wStOne : BotState := ⟨[wEntry], []⟩

def wMissingId : String := "abc"

def wDelText : String := "/delete abc"

/-- Folding decimal digits from the left equals the base-10 value of the
reversed digit list, shifted under an accumulator. -/
theorem foldl_digitVal (l : List Char) (a : Nat) :
    l.foldl (fun acc c => 10 * acc + digitVal c) a
      = a * 10 ^ l.length + Nat.ofDigits 10 ((l.map digitVal).reverse) := by
  induction l generalizing a with
  | nil => simp
  | cons c l ih =>
    simp only [List.foldl_cons, List.map_cons, List.reverse_cons, List.length_cons]
    rw [ih, Nat.ofDigits_append]
    simp only [Nat.ofDigits_cons, Nat.ofDigits_nil, List.length_reverse, List.length_map]
    ring

/-- Resetting a user's session and then looking it up yields the found
record with both fields overwritten. -/
theorem findSession_updateFirst (ss : List Session) (uid : String)
    (nm : Option SessionName) (md : Option Mode) :
    findSession (updateFirstSession ss uid nm md) uid
      = (findSession ss uid).map fun s => { s with name := nm, mode := md } := by
  induction ss with
  | nil => rfl
  | cons s rest ih =>
    by_cases h : (s.userId == uid) = true
    · simp [updateFirstSession, findSession, List.find?_cons, h]
    · simp only [updateFirstSession, findSession, List.find?_cons] at ih ⊢
      simp only [Bool.not_eq_true] at h
      simp [h, ih]

/-- The not-found reply never coincides with the refusal reply. -/
theorem delNotFound_ne_unauth (entryId : String) :
    delNotFoundMsg entryId ≠ delUnauthorizedMsg := by
  intro h
  have hL : (delNotFoundMsg entryId).data.head? = some '❌' := rfl
  rw [h] at hL
  exact absurd hL (by decide)

/-- The deletion-success reply never coincides with the refusal reply. -/
theorem delSuccess_ne_unauth (entryId : String) :
    delSuccessMsg entryId ≠ delUnauthorizedMsg := by
  intro h
  have hL : (delSuccessMsg entryId).data.head? = some '🗑' := rfl
  rw [h] at hL
  exact absurd hL (by decide)

/-- Claim C1: with a session in the split state (name Umumiy) and a text
whose first token parses to T, the commit appends exactly one Entry per real
participant, Sheyx then Polvon, each with amount round(T / 2), the same note
and the same timestamp; the rounded share of 50000 is 25000, and for even T
the two shares sum back to T. -/
theorem umumiy_split_commit (st : BotState) (userId text id1 id2 : String) (now T : Nat)
    (s : Session) (hs : findSession st.sessions userId = some s)
    (hn : s.name = some SessionName.Umumiy)
    (hp : parseKrwAmount ((tokenize text).headD emptyStr) = some T) :
    (onText st userId text id1 id2 now).1.entries
      = st.entries ++
          [⟨id1, UserName.Sheyx, mathRoundHalf T, joinSpace ((tokenize text).drop 1), now⟩,
           ⟨id2, UserName.Polvon, mathRoundHalf T, joinSpace ((tokenize text).drop 1), now⟩]
    ∧ (T % 2 = 0 → mathRoundHalf T + mathRoundHalf T = T)
    ∧ mathRoundHalf 50000 = 25000 := by
  refine ⟨?_, ?_, by decide⟩
  · simp only [onText, hs, hn, hp]
  · intro h
    unfold mathRoundHalf
    omega

/-- Witness for claim C1: splitting the message 50000 snacks in the Umumiy
state records 25000 for Sheyx and 25000 for Polvon, note snacks. -/
theorem umumiy_split_commit_witness :
    findSession wStU.sessions wUid = some wSessU
    ∧ wSessU.name = some SessionName.Umumiy
    ∧ parseKrwAmount ((tokenize wTextU).headD emptyStr) = some 50000
    ∧ ((onText wStU wUid wTextU wId1 wId2 7).1.entries
        = wStU.entries ++
            [⟨wId1, UserName.Sheyx, mathRoundHalf 50000, joinSpace ((tokenize wTextU).drop 1), 7⟩,
             ⟨wId2, UserName.Polvon, mathRoundHalf 50000, joinSpace ((tokenize wTextU).drop 1), 7⟩]
       ∧ (50000 % 2 = 0 → mathRoundHalf 50000 + mathRoundHalf 50000 = 50000)
       ∧ mathRoundHalf 50000 = 25000) :=
  ⟨rfl, rfl, by decide,
   umumiy_split_commit wStU wUid wTextU wId1 wId2 7 50000 wSessU rfl rfl (by decide)⟩

/-- Claim C2, counterexample.  Three concrete inputs refute the claim as
stated.  On 5-tab-0 the claim's residue (stripping only period, comma,
space, underscore) keeps the tab and is not all digits, so the claim demands
InvalidAmount, but the code strips every whitespace character and returns
50.  On a 400-digit residue the claim demands the written integer, but
parseInt overflows to infinity and the Number.isFinite guard makes the code
signal InvalidAmount.  On 9007199254740993 (2^53 + 1) the claim demands that
exact integer, but parseInt returns the nearest double 9007199254740992. -/
theorem parseKrw_claim_counterexample :
    (parseKrwAmount tabInput = some 50 ∧ specClaimParse tabInput = none)
    ∧ (parseKrwAmount bigInput = none ∧ specClaimParse bigInput = some (10 ^ 399))
    ∧ (parseKrwAmount overP53 = some 9007199254740992
       ∧ specClaimParse overP53 = some 9007199254740993) := by
  exact ⟨⟨by decide, by decide⟩, ⟨by decide, by decide⟩, ⟨by decide, by decide⟩⟩

/-- Claim C2 (amended): the parser strips period, comma, underscore, and any
whitespace character; it succeeds iff the residue is non-empty and all
decimal digits and the base-10 value of the residue rounds to a finite
binary64 double, and then returns that rounded value (the exact integer for
amounts below 2^53); the claimed examples all behave as stated, the
overflowing 400-digit input fails, and 2^53 + 1 returns its double
rounding. -/
theorem parseKrw_amended_spec :
    (∀ raw, parseKrwAmount raw = specAmendedParse raw)
    ∧ parseKrwAmount exDot = some 50000
    ∧ parseKrwAmount exComma = some 50000
    ∧ parseKrwAmount exSpaced = some 50000
    ∧ parseKrwAmount exUnderscore = some 50000
    ∧ parseKrwAmount exPlain = some 50000
    ∧ parseKrwAmount exAbc = none
    ∧ parseKrwAmount exDigitsLetter = none
    ∧ parseKrwAmount emptyStr = none
    ∧ parseKrwAmount bigInput = none
    ∧ parseKrwAmount overP53 = some 9007199254740992 := by
  refine ⟨?_, by decide, by decide, by decide, by decide, by decide, by decide,
    by decide, by decide, by decide, by decide⟩
  intro raw
  unfold parseKrwAmount specAmendedParse
  by_cases h : raw = ""
  · subst h
    decide
  · simp only [if_neg h]
    split
    · rw [foldl_digitVal]
      simp
    · rfl

/-- Claim C3: with a session naming a participant and mode expenses, a text
whose first token parses to T appends exactly one Entry, for that participant
only, with amount round(T / 2). -/
theorem expenses_half_commit (st : BotState) (userId text id1 id2 : String) (now T : Nat)
    (s : Session) (u : UserName) (hs : findSession st.sessions userId = some s)
    (hn : s.name = some (SessionName.user u))
    (hm : s.mode = some Mode.expenses)
    (hp : parseKrwAmount ((tokenize text).headD emptyStr) = some T) :
    (onText st userId text id1 id2 now).1.entries
      = st.entries ++ [⟨id1, u, mathRoundHalf T, joinSpace ((tokenize text).drop 1), now⟩] := by
  simp only [onText, hs, hn, hp, hm]
  simp

/-- Witness for claim C3: the message 50000 lunch in the expenses state for
Sheyx appends the single half-entry of 25000. -/
theorem expenses_half_commit_witness :
    findSession wStE.sessions wUid = some wSessE
    ∧ wSessE.name = some (SessionName.user UserName.Sheyx)
    ∧ wSessE.mode = some Mode.expenses
    ∧ parseKrwAmount ((tokenize wTextE).headD emptyStr) = some 50000
    ∧ (onText wStE wUid wTextE wId1 wId2 7).1.entries
        = wStE.entries ++
            [⟨wId1, UserName.Sheyx, mathRoundHalf 50000, joinSpace ((tokenize wTextE).drop 1), 7⟩] :=
  ⟨rfl, rfl, rfl, by decide,
   expenses_half_commit wStE wUid wTextE wId1 wId2 7 50000 wSessE UserName.Sheyx rfl rfl rfl
     (by decide)⟩

/-- Claim C4: with any session whose name is set, a text whose first token
fails amount parsing leaves the whole state (sessions and ledger) unchanged
and only replies the invalid-amount guidance. -/
theorem invalid_amount_keeps_state (st : BotState) (userId text id1 id2 : String) (now : Nat)
    (s : Session) (nm : SessionName) (hs : findSession st.sessions userId = some s)
    (hn : s.name = some nm)
    (hp : parseKrwAmount ((tokenize text).headD emptyStr) = none) :
    onText st userId text id1 id2 now = (st, [.reply invalidAmountMsg]) := by
  simp only [onText, hs, hn, hp]

/-- Witness for claim C4: the message abc snack in the Umumiy state replies
the guidance and changes nothing. -/
theorem invalid_amount_keeps_state_witness :
    findSession wStU.sessions wUid = some wSessU
    ∧ wSessU.name = some SessionName.Umumiy
    ∧ parseKrwAmount ((tokenize wBadText).headD emptyStr) = none
    ∧ onText wStU wUid wBadText wId1 wId2 7 = (wStU, [.reply invalidAmountMsg]) :=
  ⟨rfl, rfl, by decide,
   invalid_amount_keeps_state wStU wUid wBadText wId1 wId2 7 wSessU SessionName.Umumiy rfl rfl
     (by decide)⟩

/-- Claim C5: the deny callback by an allow-listed identity leaves the whole
state, in particular every stored Entry, unchanged, and sends the denial
notice to the other allow-listed identity (the requester). -/
theorem deny_clear_no_deletion (st : BotState) (userId : String)
    (h : userId ∈ ALLOWED_USERS) :
    (denyClear st userId).1 = st ∧
    ∃ other, other ∈ ALLOWED_USERS ∧ other ≠ userId ∧
      (denyClear st userId).2 = [.send other deniedNotice, .reply deniedReply] := by
  have h2 : userId = "615764917" ∨ userId = "499127006" := by
    simpa [ALLOWED_USERS] using h
  rcases h2 with rfl | rfl
  · exact ⟨rfl, "499127006", by decide, by decide, rfl⟩
  · exact ⟨rfl, "615764917", by decide, by decide, rfl⟩

/-- Witness for claim C5: a deny by the second allow-listed user leaves a
one-entry ledger untouched. -/
theorem deny_clear_no_deletion_witness :
    wUid2 ∈ ALLOWED_USERS
    ∧ ((denyClear wStOne wUid2).1 = wStOne ∧
       ∃ other, other ∈ ALLOWED_USERS ∧ other ≠ wUid2 ∧
         (denyClear wStOne wUid2).2 = [.send other deniedNotice, .reply deniedReply]) :=
  ⟨by decide, deny_clear_no_deletion wStOne wUid2 (by decide)⟩

/-- Claim C6: the approve callback by allow-listed identities empties the
ledger, is idempotent on the state, and on an already-empty ledger leaves the
state exactly as it was. -/
theorem approve_clear_idempotent (st : BotState) (u u2 : String)
    (hu : u ∈ ALLOWED_USERS) (hu2 : u2 ∈ ALLOWED_USERS) :
    (approveClear (approveClear st u).1 u2).1 = (approveClear st u).1
    ∧ (st.entries = [] → (approveClear st u).1 = st)
    ∧ (approveClear st u).1.entries = [] := by
  have h2 : ∀ v : String, v ∈ ALLOWED_USERS → v = "615764917" ∨ v = "499127006" := by
    intro v hv; simpa [ALLOWED_USERS] using hv
  rcases h2 u hu with rfl | rfl <;> rcases h2 u2 hu2 with rfl | rfl <;>
    refine ⟨rfl, ?_, rfl⟩ <;>
    · intro hemp
      obtain ⟨es, ss⟩ := st
      simp only at hemp
      subst hemp
      rfl

/-- Witness for claim C6: approving twice on a one-entry ledger equals
approving once, and the ledger is empty afterwards. -/
theorem approve_clear_idempotent_witness :
    wUid ∈ ALLOWED_USERS
    ∧ ((approveClear (approveClear wStOne wUid).1 wUid2).1 = (approveClear wStOne wUid).1
       ∧ (wStOne.entries = [] → (approveClear wStOne wUid).1 = wStOne)
       ∧ (approveClear wStOne wUid).1.entries = []) :=
  ⟨by decide, approve_clear_idempotent wStOne wUid wUid2 (by decide) (by decide)⟩

/-- Claim C7: any interaction from an identity off the allow-list produces
exactly the admin alert followed by the refusal reply, with the state
untouched and no handler run; the alert text embeds the offending identity
and the message text. -/
theorem unauthorized_blocked (adminId : String) (st : BotState)
    (userId username : String) (inc : Incoming) (id1 id2 : String) (now : Nat)
    (h : userId ∉ ALLOWED_USERS) :
    dispatch adminId st userId username inc id1 id2 now
      = (st, [.send adminId (unauthorizedAlert username userId (incomingText inc)),
              .reply notAuthorizedMsg])
    ∧ ∃ pre mid, unauthorizedAlert username userId (incomingText inc)
        = pre ++ userId ++ mid ++ incomingText inc := by
  constructor
  · have hc : (ALLOWED_USERS.contains userId) = false := by
      simpa [ALLOWED_USERS] using h
    unfold dispatch
    rw [hc]
    rfl
  · exact ⟨"🚨 Unauthorized Access Attempt\n👤 User: " ++ username ++ " (",
           ")\nMessage: ", rfl⟩

/-- Witness for claim C7: identity 999 sending the bad text is refused, the
admin is alerted, and the state is unchanged. -/
theorem unauthorized_blocked_witness :
    wOutsider ∉ ALLOWED_USERS
    ∧ (dispatch wUid wStOne wOutsider wUsername (Incoming.textMsg wBadText) wId1 wId2 7
        = (wStOne,
           [.send wUid (unauthorizedAlert wUsername wOutsider
              (incomingText (Incoming.textMsg wBadText))),
            .reply notAuthorizedMsg])
       ∧ ∃ pre mid, unauthorizedAlert wUsername wOutsider (incomingText (Incoming.textMsg wBadText))
           = pre ++ wOutsider ++ mid ++ incomingText (Incoming.textMsg wBadText)) :=
  ⟨by decide,
   unauthorized_blocked wUid wStOne wOutsider wUsername (Incoming.textMsg wBadText) wId1 wId2 7
     (by decide)⟩

/-- Claim C8: a free-text message from a user whose session is missing or has
no selected name is a complete no-op: no reply, no insert, no session change. -/
theorem idle_text_noop (st : BotState) (userId text id1 id2 : String) (now : Nat)
    (h : ∀ s, findSession st.sessions userId = some s → s.name = none) :
    onText st userId text id1 id2 now = (st, []) := by
  unfold onText
  cases hfs : findSession st.sessions userId with
  | none => rfl
  | some s =>
    have hn := h s hfs
    simp only [hn]

/-- Witness for claim C8: with an idle session (name unset) the message
50000 snacks is ignored entirely. -/
theorem idle_text_noop_witness :
    (∀ s, findSession wStI.sessions wUid = some s → s.name = none)
    ∧ onText wStI wUid wTextU wId1 wId2 7 = (wStI, []) :=
  ⟨fun s h => by cases h; rfl,
   idle_text_noop wStI wUid wTextU wId1 wId2 7 (fun s h => by cases h; rfl)⟩

/-- Claim C9: with a participant selected but no mode chosen, a text whose
first token parses to T is committed exactly like a debt: one Entry with the
full amount T for that participant, and the session resets to idle. -/
theorem person_chosen_defaults_debt (st : BotState) (userId text id1 id2 : String)
    (now T : Nat) (s : Session) (u : UserName)
    (hs : findSession st.sessions userId = some s)
    (hn : s.name = some (SessionName.user u))
    (hm : s.mode = none)
    (hp : parseKrwAmount ((tokenize text).headD emptyStr) = some T) :
    (onText st userId text id1 id2 now).1
      = ⟨st.entries ++ [⟨id1, u, T, joinSpace ((tokenize text).drop 1), now⟩],
         updateFirstSession st.sessions userId none none⟩
    ∧ findSession (onText st userId text id1 id2 now).1.sessions userId
        = some ⟨s.userId, none, none⟩ := by
  constructor
  · simp only [onText, hs, hn, hp, hm]
    rfl
  · simp only [onText, hs, hn, hp, hm]
    show findSession (updateFirstSession st.sessions userId none none) userId = _
    rw [findSession_updateFirst, hs]
    rfl

/-- Witness for claim C9: Polvon selected, no mode, message 30000 borrowed
commits the full 30000 as a single entry and the session goes idle. -/
theorem person_chosen_defaults_debt_witness :
    findSession wStD.sessions wUid = some wSessD
    ∧ wSessD.name = some (SessionName.user UserName.Polvon)
    ∧ wSessD.mode = none
    ∧ parseKrwAmount ((tokenize wTextD).headD emptyStr) = some 30000
    ∧ ((onText wStD wUid wTextD wId1 wId2 7).1
        = ⟨wStD.entries ++ [⟨wId1, UserName.Polvon, 30000, joinSpace ((tokenize wTextD).drop 1), 7⟩],
           updateFirstSession wStD.sessions wUid none none⟩
       ∧ findSession (onText wStD wUid wTextD wId1 wId2 7).1.sessions wUid
           = some ⟨wSessD.userId, none, none⟩) :=
  ⟨rfl, rfl, rfl, by decide,
   person_chosen_defaults_debt wStD wUid wTextD wId1 wId2 7 30000 wSessD UserName.Polvon rfl rfl
     rfl (by decide)⟩

/-- Claim C10: the delete command checks existence before authorization: for
an allow-listed sender and a well-formed id absent from the ledger the reply
is not-found (whoever asks); the refusal reply appears exactly when the entry
exists and the sender is not the admin identity, and then the state is
unchanged. -/
theorem delete_notfound_before_auth (adminId : String) (st : BotState)
    (userId text entryId : String)
    (hAllowed : userId ∈ ALLOWED_USERS)
    (hParts : (splitSpace text.data).map (fun cs => (⟨cs⟩ : String)) = ["/delete", entryId]) :
    (st.entries.find? (fun e => e.id == entryId) = none →
      deleteCommand adminId st userId text = (st, [.reply (delNotFoundMsg entryId)]))
    ∧ (∀ entry, st.entries.find? (fun e => e.id == entryId) = some entry →
        userId ≠ adminId →
        deleteCommand adminId st userId text = (st, [.reply delUnauthorizedMsg]))
    ∧ (OutMsg.reply delUnauthorizedMsg ∈ (deleteCommand adminId st userId text).2 →
        (∃ entry, st.entries.find? (fun e => e.id == entryId) = some entry) ∧ userId ≠ adminId) := by
  have hC : (ALLOWED_USERS.contains userId) = true := by
    simpa [ALLOWED_USERS] using hAllowed
  have hred : deleteCommand adminId st userId text
      = match st.entries.find? (fun e => e.id == entryId) with
        | none => (st, [.reply (delNotFoundMsg entryId)])
        | some entry =>
          if !ALLOWED_USERS.contains userId || userId != adminId then
            (st, [.reply delUnauthorizedMsg])
          else
            ({ st with entries := st.entries.eraseP fun e => e.id == entryId },
             .reply (delSuccessMsg entryId) :: notifyOthers userId (delNotice entry)) := by
    unfold deleteCommand
    rw [hParts]
    rfl
  refine ⟨?_, ?_, ?_⟩ <;> rw [hred]
  · intro hnone
    simp only [hnone]
  · intro entry hfind hne
    simp only [hfind]
    have hcond : (!ALLOWED_USERS.contains userId || userId != adminId) = true := by
      simp [hC, hne]
    rw [if_pos hcond]
  · cases hfind : st.entries.find? (fun e => e.id == entryId) with
    | none =>
      simp only [hfind]
      intro hmem
      simp only [List.mem_singleton] at hmem
      injection hmem with h2
      exact absurd h2.symm (delNotFound_ne_unauth entryId)
    | some entry =>
      simp only [hfind]
      by_cases hne : userId = adminId
      · subst hne
        rw [if_neg (by simp only [hC]; simp :
          ¬ ((!ALLOWED_USERS.contains userId || userId != userId) = true))]
        intro hmem
        rcases List.mem_cons.mp hmem with heq | htail
        · injection heq with h2
          exact absurd h2.symm (delSuccess_ne_unauth entryId)
        · simp [notifyOthers] at htail
      · intro hmem
        exact ⟨⟨entry, rfl⟩, hne⟩

/-- Witness for claim C10: the second allow-listed user (not the admin here)
asking to delete the absent id abc from a one-entry ledger gets the not-found
reply with nothing deleted. -/
theorem delete_notfound_before_auth_witness :
    wUid2 ∈ ALLOWED_USERS
    ∧ (splitSpace wDelText.data).map (fun cs => (⟨cs⟩ : String)) = ["/delete", wMissingId]
    ∧ (wStOne.entries.find? (fun e => e.id == wMissingId) = none →
        deleteCommand wUid wStOne wUid2 wDelText = (wStOne, [.reply (delNotFoundMsg wMissingId)]))
    ∧ wStOne.entries.find? (fun e => e.id == wMissingId) = none
    ∧ deleteCommand wUid wStOne wUid2 wDelText = (wStOne, [.reply (delNotFoundMsg wMissingId)]) :=
  have hAll : wUid2 ∈ ALLOWED_USERS := by decide
  have hP : (splitSpace wDelText.data).map (fun cs => (⟨cs⟩ : String)) = ["/delete", wMissingId] :=
    by decide
  have hmain :=
    (delete_notfound_before_auth wUid wStOne wUid2 wDelText wMissingId hAll hP).1
  ⟨hAll, hP, hmain, by decide, hmain (by decide)⟩

end TgBot
